import Mathlib

/-!
Shallow embedding of `src/bot.py` (the kaleido mining bot) — the per-wallet
accrual / reconciliation engine.  Python floats are modelled as exact
rationals; the wall clock `time.time()` is an explicit argument `now : ℚ`;
remote-call outcomes, which in the source come from the network, are explicit
inputs; the per-wallet `<wallet>_mining.dat` file is modelled as an
`Option FileContent` (absent, parseable, or malformed).
-/

namespace Kaleido

/-- Per-wallet session record, mirroring `MiningSession.data` in bot.py
(lines 47-52): `{'start_time': None, 'total_earned': 0.0, 'paid_out': 0.0,
'referral_bonus': 0.0}`.  `start_time` is an `Option ℚ` because the fresh
dictionary holds `None` there. -/
structure SessionData where
  start_time : Option ℚ
  total_earned : ℚ
  paid_out : ℚ
  referral_bonus : ℚ
deriving DecidableEq

/-- The freshly constructed `MiningSession.data` dictionary. -/
def freshData : SessionData :=
  { start_time := none, total_earned := 0, paid_out := 0, referral_bonus := 0 }

/-- Content of the per-wallet session file: either a complete JSON
serialisation of some `SessionData`, or malformed / partially written text on
which `json.load` raises (this includes the empty file left right after a
truncating `open(..., 'w')`). -/
inductive FileContent where
  | valid (d : SessionData)
  | corrupt
deriving DecidableEq

/-- `CryptoMiner._calculate_production` (bot.py lines 85-88):
`operational_time = time.time() - self.session.data['start_time']`, then
`base_production = BASE_HASHRATE * operational_time * 0.0001` with
`BASE_HASHRATE = 75.5`, then `base_production * (1 + referral_bonus)`.
The wall clock is the explicit argument `now`.  In Python a `None`
start_time would raise a TypeError here; every call site runs after
`initialize_miner` has set it, and all theorems assume
`start_time = some st`, under which the `getD 0` default is never taken. -/
def calculate_production (now : ℚ) (d : SessionData) : ℚ :=
  let operational_time := now - d.start_time.getD 0
  let base_production := 75.5 * operational_time * 0.0001
  base_production * (1 + d.referral_bonus)

/-- The `earnings_data` payload pushed by `_update_server_balance` to
`POST update-balance`. -/
structure Balance where
  total : ℚ
  pending : ℚ
  paid : ℚ
deriving DecidableEq

/-- Result of one `_update_server_balance` call: the payload pushed to the
remote service, the boolean the method returns, and the session data and
persisted file afterwards. -/
structure UpdateResult where
  pushed : Balance
  ok : Bool
  data : SessionData
  file : Option FileContent
deriving DecidableEq

/-- `CryptoMiner._update_server_balance` (bot.py lines 120-135).  `pushOk` is
the truthiness of `self.client.update_balance(...)` — falsy exactly when the
decorated call surfaced `None` (retries exhausted or non-transient failure)
or an error response.  On a truthy push the code first (when `final`) sets
`paid_out := new_balance['paid']`, then sets
`total_earned := new_balance['total']`, then calls `session.save()` which
persists the committed data; on a falsy push it returns `False` having
touched neither the data nor the file. -/
def update_server_balance (final : Bool) (pushOk : Bool) (now : ℚ)
    (d : SessionData) (file : Option FileContent) : UpdateResult :=
  let current_production := calculate_production now d
  let new_balance : Balance :=
    { total := d.total_earned + current_production
      pending := if final then 0 else current_production
      paid := d.paid_out + (if final then current_production else 0) }
  if pushOk then
    let d1 := if final then { d with paid_out := new_balance.paid } else d
    let d2 := { d1 with total_earned := new_balance.total }
    { pushed := new_balance, ok := true, data := d2,
      file := some (FileContent.valid d2) }
  else
    { pushed := new_balance, ok := false, data := d, file := file }

/-- In-memory data plus persisted file of one wallet. -/
structure WalletState where
  data : SessionData
  file : Option FileContent
deriving DecidableEq

/-- One pass of the 30-second loop body of `run_mining_cycle` (bot.py lines
137-148): a non-final `_update_server_balance` at wall-clock instant `now`
whose push outcome is `pushOk` (`display_stats` only prints). -/
def tick (now : ℚ) (pushOk : Bool) (s : WalletState) : WalletState :=
  let r := update_server_balance false pushOk now s.data s.file
  { data := r.data, file := r.file }

/-- A run of the reconciliation loop: each entry is one tick's wall-clock
instant and push outcome. -/
def run_ticks : List (ℚ × Bool) → WalletState → WalletState
  | [], s => s
  | t :: rest, s => run_ticks rest (tick t.1 t.2 s)

/-- The line printed by `CryptoMiner.shutdown` (bot.py line 156):
`"Miner {id} stopped. Total paid: {paid_out:.6f} KLDO"`.  This record is the
only report the code can emit — it carries the paid total and no
success / failure indication. -/
structure ShutdownReport where
  paid_total : ℚ
deriving DecidableEq

/-- `CryptoMiner.shutdown` (bot.py lines 153-156): clears `active`, runs the
final `_update_server_balance(final=True)` DISCARDING its boolean result,
and prints the stop line with whatever `paid_out` then holds. -/
def shutdown (pushOk : Bool) (now : ℚ) (d : SessionData)
    (file : Option FileContent) : WalletState × ShutdownReport :=
  let r := update_server_balance true pushOk now d file
  ({ data := r.data, file := r.file }, { paid_total := r.data.paid_out })

/-- `MiningSession.exists` — `os.path.exists(self.file_name)`. -/
def exists_file (file : Option FileContent) : Bool := file.isSome

/-- `MiningSession.load` (bot.py lines 57-64): `json.load` the file into
`self.data` and return `True`; on ANY exception — a missing file and
malformed content alike — print the error and return `False`, leaving
`self.data` as it was.  The result carries no distinction between absence
and corruption. -/
def load (file : Option FileContent) (d : SessionData) : Bool × SessionData :=
  match file with
  | some (FileContent.valid d2) => (true, d2)
  | some FileContent.corrupt => (false, d)
  | none => (false, d)

/-- Session setup in `CryptoMiner.__init__` (bot.py lines 74-83): start from
the fresh zeroed dictionary; if the session file exists, call `load` and
ignore its boolean result. -/
def miner_init (file : Option FileContent) : SessionData :=
  if exists_file file then (load file freshData).2 else freshData

/-- Parsed body of a registration response: `isRegistered` and
`userData.referralBonus`. -/
structure RegResponse where
  isRegistered : Bool
  referralBonus : ℚ
deriving DecidableEq

/-- Python truthiness of the stored `start_time` as tested by
`if not self.session.data['start_time']`: `None` is falsy, and so is the
float `0.0`. -/
def time_truthy : Option ℚ → Bool
  | none => false
  | some t => decide (t ≠ 0)

/-- `CryptoMiner.initialize_miner` (bot.py lines 105-118).  `reg = none`
models `check_registration` surfacing `None` (retries exhausted or
non-transient failure) or a falsy error response — the code returns `False`
for those exactly as for an explicit `isRegistered: false`.  When the wallet
is registered and the stored `start_time` is falsy, the code sets
`start_time := now` and takes `referral_bonus` from the response; otherwise
it preserves the loaded values.  Returns the value of `initialize_miner`
and the session data afterwards. -/
def initialize_miner (now : ℚ) (reg : Option RegResponse) (d : SessionData) :
    Bool × SessionData :=
  match reg with
  | none => (false, d)
  | some r =>
    if !r.isRegistered then (false, d)
    else
      let d1 :=
        if !time_truthy d.start_time then
          { d with start_time := some now, referral_bonus := r.referralBonus }
        else d
      (true, d1)

/-- Observable on-disk contents during `MiningSession.save` (bot.py lines
66-68).  `open(self.file_name, 'w')` truncates the file in place before
`json.dump` writes the new serialisation, so the states a crash can expose
are: the old content (before the open), an empty or partially written file
(after the truncating open, before the dump completes — unparseable, hence
`FileContent.corrupt`), and the complete new content.  No temporary file and
no rename are involved. -/
def save_trace (old : Option FileContent) (d : SessionData) :
    List (Option FileContent) :=
  [old, some FileContent.corrupt, some (FileContent.valid d)]

/-- The initialisation loop of `MiningSupervisor.start_operation` (bot.py
lines 178-182): `for miner in self.miners:` keep the miner when
`initialize_miner()` returns truthy, else `self.miners.remove(miner)` —
with CPython list-iterator semantics.  The iterator holds a bare index;
`remove` erases the first element equal to the current one (CryptoMiner
instances compare by identity, so that IS the current one), which shifts the
next element down into the current slot; the iterator then advances past it.
Hence the element directly after a removed one stays in the list without
ever being visited: its `initialize_miner` is never called. -/
def init_loop {α : Type} (ok : α → Bool) : List α → List α
  | [] => []
  | x :: rest =>
    if ok x then x :: init_loop ok rest
    else
      match rest with
      | [] => []
      | y :: rest2 => y :: init_loop ok rest2

/-- Outcome of one underlying call attempt inside the `handle_errors`
decorator (bot.py lines 17-30): the call returns a value, raises a
transient error (`requests.ConnectionError` / `requests.Timeout`), or raises
some other `requests.RequestException` (non-transient). -/
inductive AttemptOutcome (α : Type) where
  | success (v : α)
  | transient
  | fatal
deriving DecidableEq

/-- The retry loop of `APIClient.handle_errors`, started at loop index
`attempt` with `remaining` iterations of `range(5)` left.  `outcomes k` is
what the k-th call attempt does.  Returns the decorated call's result
(`None`, i.e. `none`, when the loop ends without returning), the number of
attempts actually made, and the list of back-off sleeps `2 ^ attempt`
performed — the source sleeps after every transient failure, the final
attempt's included. -/
def handle_errors_loop {α : Type} (outcomes : Nat → AttemptOutcome α)
    (attempt : Nat) : Nat → Option α × Nat × List Nat
  | 0 => (none, attempt, [])
  | remaining + 1 =>
    match outcomes attempt with
    | AttemptOutcome.success v => (some v, attempt + 1, [])
    | AttemptOutcome.transient =>
      let r := handle_errors_loop outcomes (attempt + 1) remaining
      (r.1, r.2.1, 2 ^ attempt :: r.2.2)
    | AttemptOutcome.fatal => (none, attempt + 1, [])

/-- `APIClient.handle_errors`: `for attempt in range(5): ...` then
`return None`. -/
def handle_errors {α : Type} (outcomes : Nat → AttemptOutcome α) :
    Option α × Nat × List Nat :=
  handle_errors_loop outcomes 0 5

/-- The back-off schedule `[2 ^ a, 2 ^ (a + 1), ...]` of length `r`. -/
def backoffs (a r : Nat) : List Nat :=
  match r with
  | 0 => []
  | r + 1 => 2 ^ a :: backoffs (a + 1) r

/-- Truthiness, at the call sites `if self.client.update_balance(...)` and
`if not response`, of the decorated call's result: the decorator's `None` is
falsy, a returned response object is truthy unless it is an error response
(the `none` case is the one the retry claims are about). -/
def surfaced_ok {α : Type} : Option α → Bool
  | none => false
  | some _ => true

/-- A committed session that began at instant 0 with no bonus. -/
def session0 : SessionData :=
  { start_time := some 0, total_earned := 0, paid_out := 0, referral_bonus := 0 }

/-- A session whose recorded start is instant 1 (later than instant 0). -/
def session1 : SessionData :=
  { start_time := some 1, total_earned := 0, paid_out := 0, referral_bonus := 0 }

/-- The shutdown scenario state of the specification: `totalEarned = 10`,
`paidOut = 2`.  At instant `60000 / 151` the pending production of this
session is exactly 3. -/
def session10_2 : SessionData :=
  { start_time := some 0, total_earned := 10, paid_out := 2, referral_bonus := 0 }

/-- Closed form of the production computation once `start_time` is set. -/
theorem calculate_production_eq (now st : ℚ) (d : SessionData)
    (hst : d.start_time = some st) :
    calculate_production now d =
      75.5 * (now - st) * 0.0001 * (1 + d.referral_bonus) := by
  simp [calculate_production, hst]

/-- C3: once `start_time = some st` (with `st ≤ now`), the
pending-production computation returns exactly
`75.5 * (now - st) * 0.0001 * (1 + referral_bonus)` — BASE_RATE 75.5 and
SCALE 0.0001 — and on the specification's scenario (zero bonus, exactly 100
seconds elapsed) it returns exactly 0.755; as a Lean function of its inputs
it is deterministic and side-effect-free. -/
theorem c3_pending_formula (now st : ℚ) (d : SessionData)
    (hst : d.start_time = some st) (_hnow : st ≤ now) :
    calculate_production now d =
        75.5 * (now - st) * 0.0001 * (1 + d.referral_bonus) ∧
      calculate_production 100 session0 = 0.755 := by
  exact ⟨calculate_production_eq now st d hst,
    by norm_num [calculate_production, session0]⟩

/-- Witness for C3 at `now = 100`, `st = 0`, zero bonus. -/
theorem c3_pending_formula_witness :
    calculate_production 100 session0 =
        75.5 * (100 - 0) * 0.0001 * (1 + session0.referral_bonus) ∧
      calculate_production 100 session0 = 0.755 :=
  c3_pending_formula 100 0 session0 rfl (by norm_num)

/-- C4: the final reconciliation pushes
`{total := total_earned + pending, pending := 0, paid := paid_out + pending}`
whatever the push outcome; exactly when the push succeeds it commits
`total_earned += pending` and `paid_out += pending` and persists the
committed data, and when it fails it changes nothing and writes nothing; on
the specification's scenario (`totalEarned = 10`, `paidOut = 2`,
`pending = 3`) the successful final reconciliation commits
`totalEarned = 13` and `paidOut = 5`. -/
theorem c4_final_reconciliation (now : ℚ) (d : SessionData)
    (file : Option FileContent) :
    ((update_server_balance true true now d file).pushed =
        { total := d.total_earned + calculate_production now d
          pending := 0
          paid := d.paid_out + calculate_production now d } ∧
      (update_server_balance true false now d file).pushed =
        { total := d.total_earned + calculate_production now d
          pending := 0
          paid := d.paid_out + calculate_production now d }) ∧
    ((update_server_balance true true now d file).ok = true ∧
      (update_server_balance true true now d file).data =
        { d with
            total_earned := d.total_earned + calculate_production now d
            paid_out := d.paid_out + calculate_production now d } ∧
      (update_server_balance true true now d file).file =
        some (FileContent.valid (update_server_balance true true now d file).data)) ∧
    ((update_server_balance true false now d file).ok = false ∧
      (update_server_balance true false now d file).data = d ∧
      (update_server_balance true false now d file).file = file) ∧
    ((update_server_balance true true (60000 / 151) session10_2 none).data.total_earned = 13 ∧
      (update_server_balance true true (60000 / 151) session10_2 none).data.paid_out = 5) := by
  refine ⟨⟨rfl, rfl⟩, ⟨rfl, rfl, rfl⟩, ⟨rfl, rfl, rfl⟩,
    by norm_num [update_server_balance, calculate_production, session10_2]⟩

/-- C8: if `paid_out ≤ total_earned` holds before an
`_update_server_balance` call — final or regular, successful or failed —
and the pending production is non-negative, then it holds of the data the
call leaves committed. -/
theorem c8_invariant_preserved (final pushOk : Bool) (now : ℚ)
    (d : SessionData) (file : Option FileContent)
    (hinv : d.paid_out ≤ d.total_earned)
    (hp : 0 ≤ calculate_production now d) :
    (update_server_balance final pushOk now d file).data.paid_out ≤
      (update_server_balance final pushOk now d file).data.total_earned := by
  cases pushOk <;> cases final <;>
    simp [update_server_balance] <;> linarith

/-- Witness for C8: the successful final reconciliation of the scenario
state `totalEarned = 10`, `paidOut = 2`, pending production 3. -/
theorem c8_invariant_preserved_witness :
    (update_server_balance true true (60000 / 151) session10_2 none).data.paid_out ≤
      (update_server_balance true true (60000 / 151) session10_2 none).data.total_earned :=
  c8_invariant_preserved true true (60000 / 151) session10_2 none
    (by norm_num [session10_2])
    (by norm_num [calculate_production, session10_2])

/-- C1 counterexample: two successful ticks, at instants 100 and 200, from
the fresh committed state `session0`.  `start_time` is indeed unchanged, but
after the second successful reconciliation the committed `total_earned` is
2.265 while the production accrued since `start_time` is 1.51: the first
tick's production was re-added by the second. -/
theorem c1_counterexample :
    (run_ticks [(100, true), (200, true)]
        { data := session0, file := some (FileContent.valid session0) }).data.start_time =
      session0.start_time ∧
    (run_ticks [(100, true), (200, true)]
        { data := session0, file := some (FileContent.valid session0) }).data.total_earned ≠
      calculate_production 200
        (run_ticks [(100, true), (200, true)]
          { data := session0, file := some (FileContent.valid session0) }).data := by
  norm_num [run_ticks, tick, update_server_balance, calculate_production, session0]

/-- C1 amended: a tick whose remote push fails leaves the session data — in
particular `total_earned` — and the persisted file exactly unchanged, and so
does any sequence of failed ticks; a successful tick adds to `total_earned`
the full production recomputed from the unchanged `start_time` and persists
the committed data — so no production is lost across failed ticks — but the
total committed by several successful ticks is the SUM of the
productions-since-start at each successful tick (the counterexample's run
commits `0.755 + 1.51`), not the production accrued since `start_time`:
production already committed is re-added by every later successful tick. -/
theorem c1_amended :
    (∀ (now : ℚ) (s : WalletState), tick now false s = s) ∧
    (∀ (ts : List ℚ) (s : WalletState),
        run_ticks (ts.map fun t => (t, false)) s = s) ∧
    (∀ (now : ℚ) (s : WalletState),
        (tick now true s).data.total_earned =
            s.data.total_earned + calculate_production now s.data ∧
          (tick now true s).data.start_time = s.data.start_time ∧
          (tick now true s).file = some (FileContent.valid (tick now true s).data)) ∧
    (run_ticks [(100, true), (200, true)]
        { data := session0, file := some (FileContent.valid session0) }).data.total_earned =
      0.755 + 1.51 := by
  have hfail : ∀ (now : ℚ) (s : WalletState), tick now false s = s := fun now s => rfl
  refine ⟨hfail, ?_, fun now s => ⟨rfl, rfl, rfl⟩, ?_⟩
  · intro ts
    induction ts with
    | nil => intro s; rfl
    | cons t rest ih =>
        intro s
        calc run_ticks ((t :: rest).map fun x => (x, false)) s
            = run_ticks (rest.map fun x => (x, false)) (tick t false s) := rfl
          _ = run_ticks (rest.map fun x => (x, false)) s := by rw [hfail t s]
          _ = s := ih s
  · norm_num [run_ticks, tick, update_server_balance, calculate_production, session0]

/-- C2: `save` is not atomic.  While saving new data over the old persisted
serialisation of `session0`, one of the crash-observable on-disk states —
the one right after the truncating `open(file_name, 'w')` — is an
unparseable partial file that is neither the complete old state nor the
complete new state. -/
theorem c2_save_not_atomic :
    ∃ c ∈ save_trace (some (FileContent.valid session0)) session10_2,
      c ≠ some (FileContent.valid session0) ∧
        c ≠ some (FileContent.valid session10_2) := by
  refine ⟨some FileContent.corrupt, by simp [save_trace], by simp, by simp⟩

/-- C5: loading yields the very same failure result for a corrupt file as
for an absent one — no CorruptError / NotFoundError distinction exists —
the constructor then silently continues with the fresh zeroed session data,
and the wallet is not excluded from auto-start: a subsequent successful
registration check accepts it, re-initialising a fresh `start_time` over the
lost history. -/
theorem c5_corrupt_fallback :
    (load (some FileContent.corrupt) freshData).1 = (load none freshData).1 ∧
    miner_init (some FileContent.corrupt) = freshData ∧
    initialize_miner 500 (some { isRegistered := true, referralBonus := 0 })
        (miner_init (some FileContent.corrupt)) =
      (true, { start_time := some 500, total_earned := 0, paid_out := 0,
               referral_bonus := 0 }) :=
  ⟨rfl, rfl, rfl⟩

/-- C6: `shutdown` discards the result of the final push — when the push
fails it emits exactly the clean-stop report carrying the prior `paid_out`,
and a failed final push (here from a state already holding `paid_out = 5`)
produces a report identical to that of a successful final settlement (the
scenario committing `paid_out = 5`): the report does not depend on the
push's outcome. -/
theorem c6_failure_reported_as_clean_stop :
    (∀ (now : ℚ) (d : SessionData) (file : Option FileContent),
        (shutdown false now d file).2 = { paid_total := d.paid_out }) ∧
    (shutdown false 100
          { start_time := some 0, total_earned := 10, paid_out := 5,
            referral_bonus := 0 } none).2 =
      (shutdown true (60000 / 151) session10_2 none).2 := by
  refine ⟨fun now d file => rfl, ?_⟩
  norm_num [shutdown, update_server_balance, calculate_production, session10_2]

/-- C7: running the initialisation loop on two wallets that both fail
registration removes only the first — the second is skipped by the
advancing iterator and stays in the active set without being initialised —
so the resulting active set is `[2]`, not the set of successfully
registered wallets (which is empty). -/
theorem c7_failed_wallet_not_excluded :
    init_loop (fun _ => false) ([1, 2] : List ℕ) = [2] ∧
      init_loop (fun _ => false) ([1, 2] : List ℕ) ≠
        ([1, 2] : List ℕ).filter fun _ => false := by
  decide

/-- C9 counterexample: with `start_time = some 1`, evaluating the
production at the earlier instant 0 returns the strictly negative value
-0.00755; no InvalidStateError is raised — the source performs no check and
always returns. -/
theorem c9_counterexample : calculate_production 0 session1 < 0 := by
  norm_num [calculate_production, session1]

/-- C9 amended: once `start_time = some st` and the bonus is non-negative,
the production is non-negative whenever `st ≤ now` and strictly increasing
in `now`; but when `now < start_time` the computation returns a strictly
negative value instead of failing with an InvalidStateError. -/
theorem c9_amended (now1 now2 st : ℚ) (d : SessionData)
    (hst : d.start_time = some st) (hb : 0 ≤ d.referral_bonus) :
    (st ≤ now1 → 0 ≤ calculate_production now1 d) ∧
    (now1 < now2 → calculate_production now1 d < calculate_production now2 d) ∧
    (now1 < st → calculate_production now1 d < 0) := by
  have hbp : (0 : ℚ) < 1 + d.referral_bonus := by linarith
  refine ⟨?_, ?_, ?_⟩
  · intro h
    rw [calculate_production_eq now1 st d hst]
    nlinarith [mul_nonneg (sub_nonneg.mpr h) hbp.le]
  · intro h
    rw [calculate_production_eq now1 st d hst,
      calculate_production_eq now2 st d hst]
    nlinarith [mul_pos (sub_pos.mpr h) hbp]
  · intro h
    rw [calculate_production_eq now1 st d hst]
    nlinarith [mul_pos (sub_pos.mpr h) hbp]

/-- Witness for C9 (amended) on `session1` (`start_time = some 1`, zero
bonus) at the instants 2, 3 and 0. -/
theorem c9_amended_witness :
    (0 ≤ calculate_production 2 session1) ∧
      (calculate_production 2 session1 < calculate_production 3 session1) ∧
      (calculate_production 0 session1 < 0) :=
  ⟨(c9_amended 2 3 1 session1 rfl (by norm_num [session1])).1 (by norm_num),
    (c9_amended 2 3 1 session1 rfl (by norm_num [session1])).2.1 (by norm_num),
    (c9_amended 0 3 1 session1 rfl (by norm_num [session1])).2.2 (by norm_num)⟩

/-- When every remaining attempt fails transiently, the retry loop makes all
of them, sleeping `2 ^ attempt` after each, and surfaces `none`. -/
theorem handle_errors_loop_transient {α : Type}
    (outcomes : Nat → AttemptOutcome α) (a r : Nat)
    (h : ∀ j, j < r → outcomes (a + j) = AttemptOutcome.transient) :
    handle_errors_loop outcomes a r = (none, a + r, backoffs a r) := by
  induction r generalizing a with
  | zero => rfl
  | succ r ih =>
      have h0 : outcomes a = AttemptOutcome.transient := by
        simpa using h 0 (Nat.succ_pos r)
      have ih2 := ih (a + 1) (fun j hj => by
        have hx := h (j + 1) (Nat.succ_lt_succ hj)
        have e : a + (j + 1) = a + 1 + j := by omega
        rwa [e] at hx)
      simp only [handle_errors_loop, h0, ih2, backoffs]
      refine Prod.ext rfl (Prod.ext ?_ rfl)
      simp only []
      omega

/-- A non-transient failure on attempt `k` (after `k` transient failures)
stops the loop at attempt `k + 1` and surfaces `none`. -/
theorem handle_errors_loop_fatal {α : Type}
    (outcomes : Nat → AttemptOutcome α) (a r k : Nat) (hk : k < r)
    (ht : ∀ j, j < k → outcomes (a + j) = AttemptOutcome.transient)
    (hf : outcomes (a + k) = AttemptOutcome.fatal) :
    handle_errors_loop outcomes a r = (none, a + k + 1, backoffs a k) := by
  induction k generalizing a r with
  | zero =>
      obtain ⟨r2, rfl⟩ : ∃ r2, r = r2 + 1 := ⟨r - 1, by omega⟩
      have hf0 : outcomes a = AttemptOutcome.fatal := by simpa using hf
      simp only [handle_errors_loop, hf0, backoffs]
  | succ k ih =>
      obtain ⟨r2, rfl⟩ : ∃ r2, r = r2 + 1 := ⟨r - 1, by omega⟩
      have h0 : outcomes a = AttemptOutcome.transient := by
        simpa using ht 0 (Nat.succ_pos k)
      have ih2 := ih (a + 1) r2 (by omega)
        (fun j hj => by
          have hx := ht (j + 1) (Nat.succ_lt_succ hj)
          have e : a + (j + 1) = a + 1 + j := by omega
          rwa [e] at hx)
        (by
          have e : a + (k + 1) = a + 1 + k := by omega
          rwa [e] at hf)
      simp only [handle_errors_loop, h0, ih2, backoffs]
      refine Prod.ext rfl (Prod.ext ?_ rfl)
      simp only []
      omega

/-- C10: for every remote call wrapped by `handle_errors` (the registration
check and the balance push are both wrapped by it): when the first five
attempts all fail transiently the call is attempted exactly 5 times with
back-off sleeps of 1, 2, 4, 8, 16 seconds and surfaces `none`; when attempt
`k < 5` fails non-transiently after `k` transient failures the call stops
right there — `k + 1` attempts, only the `k` earlier back-offs — and
surfaces `none`; and the caller treats the surfaced `none` as falsy, so the
balance-update commit is skipped and neither the session data nor the file
changes that tick, identically in both failure shapes. -/
theorem c10_retry_policy {α : Type} (outcomes : Nat → AttemptOutcome α) :
    ((∀ k, k < 5 → outcomes k = AttemptOutcome.transient) →
        handle_errors outcomes = (none, 5, [1, 2, 4, 8, 16])) ∧
    (∀ k, k < 5 → (∀ j, j < k → outcomes j = AttemptOutcome.transient) →
        outcomes k = AttemptOutcome.fatal →
        handle_errors outcomes = (none, k + 1, backoffs 0 k)) ∧
    (∀ (final : Bool) (now : ℚ) (d : SessionData) (file : Option FileContent),
        (update_server_balance final (surfaced_ok (none : Option Balance))
            now d file).data = d ∧
          (update_server_balance final (surfaced_ok (none : Option Balance))
            now d file).file = file) := by
  refine ⟨?_, ?_, ?_⟩
  · intro h
    have hrun := handle_errors_loop_transient outcomes 0 5
      (fun j hj => by simpa using h j hj)
    rw [handle_errors, hrun]
    rfl
  · intro k hk ht hf
    have hrun := handle_errors_loop_fatal outcomes 0 5 k hk
      (fun j hj => by simpa using ht j hj)
      (by simpa using hf)
    rw [handle_errors, hrun]
    simp [Nat.zero_add]
  · intro final now d file
    cases final <;> exact ⟨rfl, rfl⟩

/-- Witness for C10: all-transient attempts give `none` after 5 attempts
sleeping 1, 2, 4, 8, 16; a non-transient failure on the third attempt gives
`none` after 3 attempts sleeping only 1, 2. -/
theorem c10_retry_policy_witness :
    handle_errors (fun _ => (AttemptOutcome.transient : AttemptOutcome Unit)) =
        (none, 5, [1, 2, 4, 8, 16]) ∧
      handle_errors (fun k =>
          if k < 2 then (AttemptOutcome.transient : AttemptOutcome Unit)
          else AttemptOutcome.fatal) =
        (none, 3, [1, 2]) := by
  constructor
  · exact (c10_retry_policy fun _ =>
      (AttemptOutcome.transient : AttemptOutcome Unit)).1 (fun k _ => rfl)
  · have h := (c10_retry_policy fun k =>
        if k < 2 then (AttemptOutcome.transient : AttemptOutcome Unit)
        else AttemptOutcome.fatal).2.1 2 (by norm_num)
        (fun j hj => by simp [hj]) rfl
    simpa [backoffs] using h

end Kaleido
